import Mathlib

/-!
Verification of the ingest pipeline (queue wrapper, worker/saver pool, aggregation
cache, ingress endpoint) against its specification.  The Python modules
`ingest/messageq.py`, `ingest/models.py`, `ingest/backend.py` and
`ingest/frontend.py` are shallowly embedded below: mutable objects become
explicit state passing, the external transform capability (Spacy) and the
string hash are parameters, and fallible code returns `Except`/`Option`.
-/

/- ================= messageq.py ================= -/

/-- An item travelling through a queue: either a plain string (such as the
sentinel "STOP") or a payload value.  Python compares them with `==`, which is
never true between a string and a non-string payload. -/
inductive QItem (α : Type) where
  | str (s : String)
  | val (a : α)
deriving DecidableEq

/-- messageq.py QueueWrapper: a FIFO list (put appends at the tail, get pops the
head) together with the shared `_prevent_writes` event (`true` once set). -/
structure QueueWrapper (α : Type) where
  name : String
  q : List α := []
  _prevent_writes : Bool := false
deriving DecidableEq

/-- messageq.py QueueWrapper.is_writable (lines 53-58). -/
def QueueWrapper.is_writable {α : Type} (qw : QueueWrapper α) : Bool :=
  !qw._prevent_writes

/-- messageq.py QueueWrapper.is_drained (lines 60-63): not writable and empty. -/
def QueueWrapper.is_drained {α : Type} (qw : QueueWrapper α) : Bool :=
  !qw.is_writable && qw.q.isEmpty

/-- messageq.py QueueWrapper.empty (lines 65-70). -/
def QueueWrapper.empty {α : Type} (qw : QueueWrapper α) : Bool :=
  qw.q.isEmpty

/-- messageq.py QueueWrapper.put (lines 36-39): enqueue only when writable,
silently drop otherwise. -/
def QueueWrapper.put {α : Type} (qw : QueueWrapper α) (obj : α) : QueueWrapper α :=
  if qw.is_writable then { qw with q := qw.q ++ [obj] } else qw

/-- messageq.py QueueWrapper.put_many (lines 41-43): put each object in order. -/
def QueueWrapper.put_many {α : Type} (qw : QueueWrapper α) (objs : List α) : QueueWrapper α :=
  objs.foldl (fun acc obj => acc.put obj) qw

/-- messageq.py QueueWrapper.prevent_writes (lines 45-51): set the event. -/
def QueueWrapper.prevent_writes {α : Type} (qw : QueueWrapper α) : QueueWrapper α :=
  { qw with _prevent_writes := true }

/-- messageq.py QueueWrapper.get (lines 22-34): if the queue is drained return
the sentinel "STOP" at once; otherwise block until an item is available and pop
it.  `none` models the blocking case (writable and empty), which never returns. -/
def QueueWrapper.get {α : Type} (qw : QueueWrapper (QItem α)) :
    Option (QItem α × QueueWrapper (QItem α)) :=
  if qw.is_drained then some (QItem.str "STOP", qw)
  else
    match qw.q with
    | [] => none
    | x :: rest => some (x, { qw with q := rest })

/- ================= models.py ================= -/

/-- models.py Post: content and publication, both required. -/
structure Post where
  content : String
  publication : String
deriving DecidableEq

/-- models.py ProcessedPost.  The Python `entities` field is a
`collections.Counter` built from a token list; it is embedded as the list of
tokens, i.e. the multiset of counted elements, so Counter addition becomes list
append and the count of a word is `entities.count word`.  `publication` defaults
to Python `None`, hence the `Option`. -/
structure ProcessedPost where
  publication : Option String := none
  entities : List String := []
  article_count : Nat := 0
deriving DecidableEq

/-- Python str.lower(), embedded at the character-list level (structural
recursion, so it evaluates by kernel reduction). -/
def pyLower (s : String) : String :=
  String.mk (s.data.map Char.toLower)

/-- Python str.strip(): remove leading and trailing whitespace. -/
def pyStrip (s : String) : String :=
  String.mk (((s.data.dropWhile Char.isWhitespace).reverse.dropWhile
    Char.isWhitespace).reverse)

/-- models.py ProcessedPost.pub_key (lines 29-31): publication stripped and
lower-cased (an unset publication has no key; Python would raise there). -/
def ProcessedPost.pub_key (p : ProcessedPost) : Option String :=
  p.publication.map (fun s => pyLower (pyStrip s))

/-- The distinct elements of a token list in first-occurrence order: the keys of
the Counter in dict insertion order. -/
def distinctInOrder (l : List String) : List String :=
  l.foldl (fun acc w => if w ∈ acc then acc else acc ++ [w]) []

/-- The (element, count) pairs of the Counter, in key insertion order. -/
def counterPairs (l : List String) : List (String × Nat) :=
  (distinctInOrder l).map (fun w => (w, l.count w))

/-- Insert a pair into a count-descending list, after all pairs of larger or
equal count (the stable placement Python sorting gives). -/
def insertDesc (x : String × Nat) : List (String × Nat) → List (String × Nat)
  | [] => [x]
  | y :: ys => if y.2 < x.2 then x :: y :: ys else y :: insertDesc x ys

/-- Stable sort by count, descending. -/
def sortByCountDesc (l : List (String × Nat)) : List (String × Nat) :=
  l.foldr insertDesc []

/-- Counter.most_common(n): the n largest counts, ties in first-encountered
order. -/
def counterMostCommon (entities : List String) (n : Nat) : List (String × Nat) :=
  (sortByCountDesc (counterPairs entities)).take n

/-- One database message, the 4-tuple of models.py lines 39-43: either a word
document or a publication count incrementor. -/
inductive Payload where
  | wordCount (word : String) (count : Nat)
  | countOnly (count : Nat)
deriving DecidableEq

/-- The (pubname, collname, doc_id, document_dict) tuple consumed by
persistence.py persist. -/
structure DbMsg where
  pubname : Option String
  collname : Option String
  doc_id : Option String
  document_dict : Payload
deriving DecidableEq

/-- models.py ProcessedPost.transform_for_database (lines 33-50): one message
per top-n entity, of shape (pub_key, "ent", str(hash(word)), word-count dict),
followed by one count-incrementor (pub_key, None, None, count dict).  Python
hashes of strings are run-dependent, so `h` is a parameter. -/
def ProcessedPost.transform_for_database (h : String → Int) (p : ProcessedPost)
    (top_n : Nat) : List DbMsg :=
  (counterMostCommon p.entities top_n).map (fun wc =>
    { pubname := p.pub_key, collname := some "ent", doc_id := some (toString (h wc.1)),
      document_dict := Payload.wordCount wc.1 wc.2 })
  ++ [{ pubname := p.pub_key, collname := none, doc_id := none,
        document_dict := Payload.countOnly p.article_count }]

/-- models.py ProcessedPost.__add__ (lines 52-57): bump this record's
article_count by one, take the publication from the right operand, and sum the
entity counters. -/
def ProcessedPost.add (self other : ProcessedPost) : ProcessedPost :=
  { publication := other.publication
    entities := self.entities ++ other.entities
    article_count := self.article_count + 1 }

/- ================= backend.py ================= -/

/-- backend.py Worker (lines 33-90): the process state.  __init__ (lines 39-44)
binds exactly the attributes iq, oq, _cache_size, _count and _cache. -/
structure Worker where
  iq : QueueWrapper (QItem Post)
  oq : QueueWrapper (QItem DbMsg)
  _cache_size : Nat := 25000
  _count : Nat := 0
  _cache : List (Option String × ProcessedPost) := []
deriving DecidableEq

/-- Association-list lookup for the worker cache dict (keys are pub_keys). -/
def lookupKey (k : Option String) :
    List (Option String × ProcessedPost) → Option ProcessedPost
  | [] => none
  | kv :: rest => if kv.1 = k then some kv.2 else lookupKey k rest

/-- Association-list update for the worker cache dict: overwrite in place, or
append a new binding (dict insertion order). -/
def updateAssoc (k : Option String) (v : ProcessedPost) :
    List (Option String × ProcessedPost) → List (Option String × ProcessedPost)
  | [] => [(k, v)]
  | kv :: rest => if kv.1 = k then (kv.1, v) :: rest else kv :: updateAssoc k v rest

/-- backend.py Worker.count (lines 51-57): bump the counter by the given value
and return the total; Python `if incr_num:` is false for None and for 0. -/
def Worker.count (w : Worker) (incr_num : Option Nat) : Worker × Nat :=
  match incr_num with
  | some 0 => (w, w._count)
  | none => (w, w._count)
  | some n => ({ w with _count := w._count + n }, w._count + n)

/-- backend.py Worker.reset_cache (lines 59-60): fresh defaultdict. -/
def Worker.reset_cache (w : Worker) : Worker :=
  { w with _cache := [] }

/-- backend.py Worker.cache (lines 62-67): `self._cache[msg.pub_key] += msg` on
a defaultdict(ProcessedPost) — the missing slot defaults to an empty
ProcessedPost — then `return self.count(1)`. -/
def Worker.cache (w : Worker) (msg : ProcessedPost) : Worker × Nat :=
  let slot := ((lookupKey msg.pub_key w._cache).getD {}).add msg
  Worker.count { w with _cache := updateAssoc msg.pub_key slot w._cache } (some 1)

/-- backend.py Worker.flush_cache (lines 69-74): put_many the database
transform of every cached record onto the output queue, then reset the cache
(and only the cache — the counter is untouched). -/
def Worker.flush_cache (h : String → Int) (w : Worker) : Worker :=
  let oq := w._cache.foldl
    (fun acc kv =>
      acc.put_many ((ProcessedPost.transform_for_database h kv.2 2000).map QItem.val))
    w.oq
  Worker.reset_cache { w with oq := oq }

/-- One iteration of the body of Worker.run (lines 85-87): cache the processed
message and flush when the returned total equals the cache size.  `proc` is the
external DataProcessor.process_message transform. -/
def Worker.step (h : String → Int) (proc : Post → ProcessedPost)
    (w : Worker) (msg : Post) : Worker :=
  match Worker.cache w (proc msg) with
  | (w1, c) => if c = w1._cache_size then Worker.flush_cache h w1 else w1

/-- The loop of Worker.run (lines 76-90) over the items currently in the input
queue, whose writable flag is fixed for the duration: get until the sentinel
"STOP" (by equality), stepping on each Post; a drained empty queue yields STOP;
on exit perform the final flush.  Returns the finished worker and the items
left unread, or `none` if the loop blocks (writable empty queue) or a message
the processor cannot handle arrives (a stray non-STOP string would crash the
Python worker). -/
def Worker.runItems (h : String → Int) (proc : Post → ProcessedPost)
    (writable : Bool) : List (QItem Post) → Worker → Option (Worker × List (QItem Post))
  | [], w => if writable then none else some (Worker.flush_cache h w, [])
  | QItem.str s :: rest, w =>
      if s = "STOP" then some (Worker.flush_cache h w, rest) else none
  | QItem.val p :: rest, w =>
      Worker.runItems h proc writable rest (Worker.step h proc w p)

/-- backend.py Worker.run (lines 76-90), as a function of the worker state:
run the loop on the input queue and record the consumed items.  `some` is the
clean exit-0 path. -/
def Worker.run (h : String → Int) (proc : Post → ProcessedPost) (w : Worker) :
    Option Worker :=
  (Worker.runItems h proc w.iq.is_writable w.iq.q w).map
    (fun res => { res.1 with iq := { w.iq with q := res.2 } })

/-- Attribute lookup of a queue-valued attribute on a Worker instance: __init__
binds `iq` (the input queue) and `oq` (the output queue); no other queue
attribute exists. -/
def Worker.queueAttr (w : Worker) (attr : String) :
    Option (QueueWrapper (QItem Post) ⊕ QueueWrapper (QItem DbMsg)) :=
  if attr = "iq" then some (Sum.inl w.iq)
  else if attr = "oq" then some (Sum.inr w.oq)
  else none

/-- backend.py Worker.shutdown (lines 46-49), the SIGTERM handler: log, then
`self.outq.q.put("STOP")` — a raw put on the underlying transport (bypassing
the writable flag) of the queue bound to attribute `outq`.  The attribute
lookup is modelled explicitly because __init__ binds no such name. -/
def Worker.shutdown (w : Worker) : Except String Worker :=
  match Worker.queueAttr w "outq" with
  | none => Except.error "AttributeError: Worker object has no attribute outq"
  | some (Sum.inl qr) => Except.ok { w with iq := { qr with q := qr.q ++ [QItem.str "STOP"] } }
  | some (Sum.inr qr) => Except.ok { w with oq := { qr with q := qr.q ++ [QItem.str "STOP"] } }

/-- Fold Worker.cache over a list of processed messages, as the run loop does
between flushes. -/
def cacheAll (w : Worker) (msgs : List ProcessedPost) : Worker :=
  msgs.foldl (fun acc m => (Worker.cache acc m).1) w

/-- backend.py Saver (lines 93-112): holds its input queue; the Firestore
client and persist_fn are the external persistence capability. -/
structure Saver where
  q : QueueWrapper (QItem DbMsg)
deriving DecidableEq

/-- The loop of Saver.run (lines 107-112) over the queued items with a fixed
writable flag: get until the sentinel "STOP", invoking persist_fn on each
message; the accumulator records the persist_fn invocations in order.  A stray
non-STOP string would crash the Python saver when unpacked. -/
def Saver.runItems (writable : Bool) :
    List (QItem DbMsg) → List DbMsg → Option (List DbMsg × List (QItem DbMsg))
  | [], acc => if writable then none else some (acc, [])
  | QItem.str s :: rest, acc => if s = "STOP" then some (acc, rest) else none
  | QItem.val m :: rest, acc => Saver.runItems writable rest (acc ++ [m])

/-- backend.py Saver.run: the list of messages handed to persist_fn and the
finished queue state; `some` is the clean exit-0 path. -/
def Saver.run (s : Saver) : Option (List DbMsg × Saver) :=
  (Saver.runItems s.q.is_writable s.q.q []).map
    (fun res => (res.1, { q := { s.q with q := res.2 } }))

/- ================= frontend.py ================= -/

/-- The Python exceptions the frontend connector can raise. -/
inductive PyError where
  | attributeError (attr : String)
  | assertionError (msg : String)
  | connectionRefused
  | recursionError
deriving DecidableEq

/-- State of the multiprocessing BaseManager client: whether the backend's
manager server is reachable and whether connect() has succeeded. -/
structure ManagerState where
  serverReachable : Bool
  connected : Bool := false
deriving DecidableEq

/-- Calling the registered `iqueue` method on an unconnected manager client
raises AssertionError("server not yet started"); once connected it returns a
proxy handle (modelled as Unit). -/
def managerIqueue (m : ManagerState) : Except PyError Unit :=
  if m.connected then Except.ok ()
  else Except.error (PyError.assertionError "server not yet started")

/-- BaseManager.connect(): raises ConnectionRefusedError when no server
listens on the address. -/
def managerConnect (m : ManagerState) : Except PyError ManagerState :=
  if m.serverReachable then Except.ok { m with connected := true }
  else Except.error PyError.connectionRefused

/-- frontend.py Connector (lines 18-56).  `queue` holds the Python value of the
attribute `queue` (None at init).  `iqueueAttr` models the instance attribute
`iqueue`: the outer `none` means the attribute is not bound at all (so reading
it raises AttributeError), `some v` means it is bound to the Python value v. -/
structure Connector where
  manager : ManagerState
  queue : Option Unit
  iqueueAttr : Option (Option Unit)
deriving DecidableEq

/-- frontend.py Connector.__init__ (lines 25-28): register the manager name,
create the manager client, and set `self.queue = None`.  The attribute `iqueue`
is never assigned here, so it starts unbound. -/
def Connector.init (m : ManagerState) : Connector :=
  { manager := m, queue := none, iqueueAttr := none }

/-- frontend.py Connector.__call__ (lines 32-53).  It begins with
`if self.iqueue:` — an attribute read that raises AttributeError when `iqueue`
is unbound — then tries `self.iqueue = self.manager.iqueue()`; on
AssertionError("server not yet started") it connects (re-raising
ConnectionRefusedError) and retries via `return self()` (fuel bounds the
recursion); a non-matching AssertionError falls off the except block and
returns Python None; any other exception is re-raised. -/
def Connector.call : Nat → Connector → Except PyError (Option Unit × Connector)
  | 0, _ => Except.error PyError.recursionError
  | fuel + 1, c =>
    match c.iqueueAttr with
    | none => Except.error (PyError.attributeError "iqueue")
    | some (some hdl) => Except.ok (some hdl, c)
    | some none =>
      match managerIqueue c.manager with
      | Except.ok hdl => Except.ok (some hdl, { c with iqueueAttr := some (some hdl) })
      | Except.error (PyError.assertionError msg) =>
        if msg = "server not yet started" then
          match managerConnect c.manager with
          | Except.error e => Except.error e
          | Except.ok m2 => Connector.call fuel { c with manager := m2 }
        else Except.ok (none, c)
      | Except.error e => Except.error e

/-- An HTTPException as raised by the endpoint. -/
structure HttpException where
  status_code : Nat
  detail : String
deriving DecidableEq

/-- The outcome of an ingress request: a normal return (the route decorator
makes it HTTP 201), a raised HTTPException, or an unhandled Python exception
(which FastAPI surfaces as a server error). -/
inductive EndpointResult where
  | response (status : Nat)
  | httpError (e : HttpException)
  | pythonError (msg : String)
deriving DecidableEq

/-- frontend.py check_auth_header (lines 58-69): accept exactly the api-key
header "password", otherwise raise 403. -/
def check_auth_header (api_key_header : Option String) : Except HttpException Bool :=
  if api_key_header = some "password" then Except.ok true
  else Except.error { status_code := 403, detail := "Invalid API key" }

/-- frontend.py create_post (lines 71-77) with its FastAPI wiring: the auth
dependency is resolved before the body runs, so a 403 is raised before any
enqueue.  The body tries queue.put(post) — its outcome over the network proxy
is the `enqueue` parameter — and on exception raises HTTP 500 carrying the
message.  Otherwise it executes `return ex`: but `ex` is a local bound only
inside the except clause (and CPython unbinds it when that clause exits), so
the success path raises UnboundLocalError.  The Bool records whether the
enqueue was attempted. -/
def create_post (api_key_header : Option String) (enqueue : Except String Unit) :
    EndpointResult × Bool :=
  match check_auth_header api_key_header with
  | Except.error e => (EndpointResult.httpError e, false)
  | Except.ok _ =>
    match enqueue with
    | Except.error msg =>
      (EndpointResult.httpError
        { status_code := 500, detail := "Failed to enqueue post: " ++ msg }, true)
    | Except.ok _ =>
      (EndpointResult.pythonError
        "UnboundLocalError: local variable ex referenced before assignment", true)

/- ================= concrete scenario data ================= -/

/-- A concrete stand-in for the external Spacy transform: the publication is
carried over and the content yields one extracted entity. -/
def proc0 : Post → ProcessedPost :=
  fun p => { publication := some p.publication, entities := [p.content], article_count := 0 }

/-- A concrete stand-in for the run-dependent Python string hash. -/
def h0 : String → Int :=
  fun s => Int.ofNat s.length

def iqEmpty : QueueWrapper (QItem Post) :=
  { name := "iqueue", q := [], _prevent_writes := false }

def oqEmpty : QueueWrapper (QItem DbMsg) :=
  { name := "oqueue", q := [], _prevent_writes := false }

def postA : Post := { content := "a", publication := "m" }

def postB : Post := { content := "b", publication := "m" }

/-- A worker with cache threshold 1 (the failing input for the flush-repetition
claim scales to any threshold). -/
def wC1 : Worker :=
  { iq := iqEmpty, oq := oqEmpty, _cache_size := 1, _count := 0, _cache := [] }

def qDrained : QueueWrapper (QItem Post) :=
  { name := "iqueue", q := [], _prevent_writes := true }

def ppA : ProcessedPost :=
  { publication := some "Acme Corp", entities := ["corp"], article_count := 0 }

def ppB : ProcessedPost :=
  { publication := some "acme corp ", entities := ["corp", "deal"], article_count := 0 }

def wEmpty : Worker :=
  { iq := iqEmpty, oq := oqEmpty, _cache_size := 25000, _count := 0, _cache := [] }

def ppC6 : ProcessedPost :=
  { publication := some "Tech", entities := ["ai"], article_count := 3 }

/-- A worker holding one aggregated record at flush time. -/
def wC6 : Worker :=
  { iq := iqEmpty, oq := oqEmpty, _cache_size := 25000, _count := 3,
    _cache := [(some "tech", ppC6)] }

/-- The input queue of the sentinel scenario: one pending post, writes enabled. -/
def iqC10 : QueueWrapper (QItem Post) :=
  { name := "iqueue", q := [QItem.val postA], _prevent_writes := false }

/-- The worker of the sentinel scenario, after a producer put of plain "STOP". -/
def wStop : Worker :=
  { iq := iqC10.put (QItem.str "STOP"), oq := oqEmpty,
    _cache_size := 25000, _count := 0, _cache := [] }

/-- The same pending work, reached instead by draining (writes disabled). -/
def wDrainedRun : Worker :=
  { iq := { name := "iqueue", q := [QItem.val postA], _prevent_writes := true },
    oq := oqEmpty, _cache_size := 25000, _count := 0, _cache := [] }

def msgA : DbMsg :=
  { pubname := some "m", collname := none, doc_id := none,
    document_dict := Payload.countOnly 7 }

/-- The saver queue of the sentinel scenario: one message then a produced
"STOP", writes still enabled. -/
def sQW : QueueWrapper (QItem DbMsg) :=
  { name := "oqueue", q := [QItem.val msgA, QItem.str "STOP"], _prevent_writes := false }

/-- The drained counterpart. -/
def sQD : QueueWrapper (QItem DbMsg) :=
  { name := "oqueue", q := [QItem.val msgA], _prevent_writes := true }

/- ================= first lemmas ================= -/

/-- Membership in an insertDesc result is membership in the input or being the
inserted element. -/
theorem mem_insertDesc (a x : String × Nat) (l : List (String × Nat)) :
    a ∈ insertDesc x l ↔ a = x ∨ a ∈ l := by
  induction l with
  | nil => simp [insertDesc]
  | cons y ys ih =>
    by_cases hxy : y.2 < x.2
    · simp [insertDesc, hxy]
    · simp [insertDesc, hxy, ih]
      tauto

/-- insertDesc permutes a cons. -/
theorem insertDesc_perm (x : String × Nat) (l : List (String × Nat)) :
    (insertDesc x l).Perm (x :: l) := by
  induction l with
  | nil => simp [insertDesc]
  | cons y ys ih =>
    by_cases hxy : y.2 < x.2
    · simp [insertDesc, hxy]
    · rw [insertDesc, if_neg hxy]
      exact (ih.cons y).trans (List.Perm.swap x y ys)

/-- sortByCountDesc permutes its input. -/
theorem sortByCountDesc_perm (l : List (String × Nat)) :
    (sortByCountDesc l).Perm l := by
  induction l with
  | nil => simp [sortByCountDesc]
  | cons x xs ih =>
    have : sortByCountDesc (x :: xs) = insertDesc x (sortByCountDesc xs) := rfl
    rw [this]
    exact (insertDesc_perm x (sortByCountDesc xs)).trans (ih.cons x)

/-- insertDesc preserves count-descending order. -/
theorem insertDesc_pairwise (x : String × Nat) (l : List (String × Nat))
    (hl : l.Pairwise (fun a b => b.2 ≤ a.2)) :
    (insertDesc x l).Pairwise (fun a b => b.2 ≤ a.2) := by
  induction l with
  | nil => simp [insertDesc]
  | cons y ys ih =>
    rcases List.pairwise_cons.mp hl with ⟨hy, hys⟩
    by_cases hxy : y.2 < x.2
    · rw [insertDesc, if_pos hxy]
      refine List.pairwise_cons.mpr ⟨?_, hl⟩
      intro b hb
      rcases List.mem_cons.mp hb with rfl | hb2
      · exact Nat.le_of_lt hxy
      · exact Nat.le_trans (hy b hb2) (Nat.le_of_lt hxy)
    · rw [insertDesc, if_neg hxy]
      refine List.pairwise_cons.mpr ⟨?_, ih hys⟩
      intro b hb
      rcases (mem_insertDesc b x ys).mp hb with rfl | hb2
      · exact Nat.le_of_not_lt hxy
      · exact hy b hb2

/-- The sorted pair list is count-descending. -/
theorem sortByCountDesc_pairwise (l : List (String × Nat)) :
    (sortByCountDesc l).Pairwise (fun a b => b.2 ≤ a.2) := by
  induction l with
  | nil => simp [sortByCountDesc]
  | cons x xs ih => exact insertDesc_pairwise x (sortByCountDesc xs) ih

/-- Every pair produced by counterPairs is an element with its count. -/
theorem counterPairs_mem (l : List String) (wc : String × Nat)
    (hwc : wc ∈ counterPairs l) : wc.2 = l.count wc.1 := by
  rcases List.mem_map.mp hwc with ⟨w, -, rfl⟩
  rfl

/-- Every pair reported by most_common is an element with its count. -/
theorem counterMostCommon_mem (l : List String) (n : Nat) (wc : String × Nat)
    (hwc : wc ∈ counterMostCommon l n) : wc.2 = l.count wc.1 := by
  have h1 : wc ∈ sortByCountDesc (counterPairs l) := List.take_subset n _ hwc
  have h2 : wc ∈ counterPairs l := (sortByCountDesc_perm (counterPairs l)).mem_iff.mp h1
  exact counterPairs_mem l wc h2

/-- put on a write-disabled queue is the identity. -/
theorem put_disabled {α : Type} (qw : QueueWrapper α) (hp : qw._prevent_writes = true)
    (x : α) : qw.put x = qw := by
  simp [QueueWrapper.put, QueueWrapper.is_writable, hp]

/-- put_many on a write-disabled queue is the identity. -/
theorem put_many_disabled {α : Type} (xs : List α) :
    ∀ qw : QueueWrapper α, qw._prevent_writes = true → qw.put_many xs = qw := by
  induction xs with
  | nil => intro qw hp; rfl
  | cons x rest ih =>
    intro qw hp
    have h1 : qw.put_many (x :: rest) = (qw.put x).put_many rest := rfl
    rw [h1, put_disabled qw hp x]
    exact ih qw hp

/-- C4 (confirmed): for every queue state, drainedness is exactly the
conjunction of the write-disable flag and emptiness, re-evaluated on the call,
and a drained queue's get returns the STOP sentinel immediately without
popping. -/
theorem get_returns_stop_when_drained {α : Type} (qw : QueueWrapper (QItem α)) :
    qw.is_drained = (qw._prevent_writes && qw.q.isEmpty) ∧
    (qw.is_drained = true → qw.get = some (QItem.str "STOP", qw)) := by
  constructor
  · simp [QueueWrapper.is_drained, QueueWrapper.is_writable]
  · intro hd
    simp [QueueWrapper.get, hd]

/-- C4 witness: a concrete write-disabled empty queue returns STOP at once. -/
theorem get_returns_stop_when_drained_witness :
    qDrained.get = some (QItem.str "STOP", qDrained) :=
  (get_returns_stop_when_drained qDrained).2 rfl

/-- C5 (confirmed): for every item and every queue on which prevent_writes has
been called, put leaves the queue state unchanged (the item is silently
dropped, no error path exists), and put_many drops every element the same
way. -/
theorem put_after_prevent_writes_noop {α : Type} (qw : QueueWrapper α) (x : α)
    (xs : List α) :
    (qw.prevent_writes).put x = qw.prevent_writes ∧
    (qw.prevent_writes).put_many xs = qw.prevent_writes :=
  ⟨put_disabled qw.prevent_writes rfl x, put_many_disabled xs qw.prevent_writes rfl⟩

/-- C7 (confirmed): for every pair of aggregated records, the combine operation
(`__add__`) increments the left record's article_count by exactly one,
independently of the right record's own count, takes the resulting publication
from the right operand, and sums the entity multisets. -/
theorem processed_post_add_spec (a b : ProcessedPost) :
    (a.add b).article_count = a.article_count + 1 ∧
    (a.add b).publication = b.publication ∧
    ((a.add b).entities : Multiset String)
      = (a.entities : Multiset String) + (b.entities : Multiset String) := by
  refine ⟨rfl, rfl, ?_⟩
  simp [ProcessedPost.add]

/-- C2 (code_bug evidence): on every worker state the SIGTERM handler raises
AttributeError — it dereferences `self.outq`, an attribute __init__ never
binds (the fields are `iq` and `oq`) — so it neither completes nor injects a
STOP sentinel into the transport of the input queue the worker reads from. -/
theorem worker_shutdown_raises_attribute_error (w : Worker) :
    Worker.shutdown w = Except.error "AttributeError: Worker object has no attribute outq" := rfl

/-- C9 (code_bug evidence): every first invocation of the freshly constructed
frontend connector raises AttributeError("iqueue") — __init__ assigns
`self.queue = None` while __call__ begins with `if self.iqueue:` — regardless
of whether the manager server is reachable, so the explicit reconnect path is
never reached. -/
theorem connector_first_call_attribute_error (m : ManagerState) (fuel : Nat) :
    Connector.call (fuel + 1) (Connector.init m)
      = Except.error (PyError.attributeError "iqueue") := rfl

/-- C8 (code_bug evidence): an authenticated request whose enqueue succeeds
does not produce the 201 created-acknowledgement: the handler executes
`return ex` with `ex` unbound on the success path and raises
UnboundLocalError (a server error), while the enqueue-failure path returns
the 500 with the failure message and an unauthenticated request is rejected
with 403 before any enqueue is attempted. -/
theorem create_post_success_raises_unbound_local :
    create_post (some "password") (Except.ok ())
      = (EndpointResult.pythonError
          "UnboundLocalError: local variable ex referenced before assignment", true) ∧
    (∀ msg : String, create_post (some "password") (Except.error msg)
      = (EndpointResult.httpError
          { status_code := 500, detail := "Failed to enqueue post: " ++ msg }, true)) ∧
    (∀ enq : Except String Unit, create_post none enq
      = (EndpointResult.httpError { status_code := 403, detail := "Invalid API key" }, false)) :=
  ⟨rfl, fun _ => rfl, fun _ => rfl⟩

/-- C1 (code_bug evidence): with cache threshold 1, the first processed record
reaches the threshold and flushes (cache cleared), but the running counter is
not reset by the flush, so the very next record — a full threshold-many batch
after a threshold-triggered flush — does not trigger another flush: the cache
is left non-empty and the counter keeps growing past the threshold.  In
general, flush_cache never resets the counter. -/
theorem worker_threshold_flush_not_repeated :
    ((Worker.step h0 proc0 wC1 postA)._cache = [] ∧
      (Worker.step h0 proc0 wC1 postA)._count = 1) ∧
    (Worker.step h0 proc0 (Worker.step h0 proc0 wC1 postA) postB)._cache ≠ [] ∧
    (Worker.step h0 proc0 (Worker.step h0 proc0 wC1 postA) postB)._count = 2 ∧
    (∀ (h : String → Int) (w : Worker), (Worker.flush_cache h w)._count = w._count) := by
  refine ⟨⟨by decide, by decide⟩, by decide, by decide, fun h w => rfl⟩

/-- One cache call updates the dict slot at the message's pub_key. -/
theorem cache_step_cache (w : Worker) (p : ProcessedPost) :
    ((Worker.cache w p).1)._cache
      = updateAssoc p.pub_key (((lookupKey p.pub_key w._cache).getD {}).add p) w._cache := rfl

/-- One cache call increments the running counter by one. -/
theorem cache_step_count (w : Worker) (p : ProcessedPost) :
    ((Worker.cache w p).1)._count = w._count + 1 := rfl

/-- Folding same-key messages into a singleton cache keeps it a singleton and
folds __add__ over the slot. -/
theorem cacheAll_singleton (key : String) :
    ∀ (ps : List ProcessedPost) (w : Worker) (acc : ProcessedPost),
      (∀ p ∈ ps, p.pub_key = some key) →
      w._cache = [(some key, acc)] →
      (cacheAll w ps)._cache = [(some key, ps.foldl ProcessedPost.add acc)] := by
  intro ps
  induction ps with
  | nil =>
    intro w acc hk hc
    simpa [cacheAll] using hc
  | cons p ps ih =>
    intro w acc hk hc
    have hp : p.pub_key = some key := hk p (List.mem_cons_self p ps)
    have h1 : ((Worker.cache w p).1)._cache = [(some key, acc.add p)] := by
      rw [cache_step_cache, hc, hp]
      simp [lookupKey, updateAssoc]
    have h2 := ih ((Worker.cache w p).1) (acc.add p)
      (fun q hq => hk q (List.mem_cons_of_mem p hq)) h1
    simpa [cacheAll] using h2

/-- Folding a non-empty same-key message list into an empty cache produces the
singleton holding the __add__-fold over the default record. -/
theorem cacheAll_from_empty (key : String) (ps : List ProcessedPost) (p : ProcessedPost)
    (w : Worker) (hc : w._cache = []) (hk : ∀ q ∈ p :: ps, q.pub_key = some key) :
    (cacheAll w (p :: ps))._cache
      = [(some key, (p :: ps).foldl ProcessedPost.add {})] := by
  have hp : p.pub_key = some key := hk p (List.mem_cons_self p ps)
  have h1 : ((Worker.cache w p).1)._cache = [(some key, ProcessedPost.add {} p)] := by
    rw [cache_step_cache, hc, hp]
    simp [lookupKey, updateAssoc]
  have h2 := cacheAll_singleton key ps ((Worker.cache w p).1) (ProcessedPost.add {} p)
    (fun q hq => hk q (List.mem_cons_of_mem p hq)) h1
  simpa [cacheAll] using h2

/-- The __add__-fold counts one article per merged record. -/
theorem foldl_add_article_count (ps : List ProcessedPost) :
    ∀ acc : ProcessedPost,
      (ps.foldl ProcessedPost.add acc).article_count = acc.article_count + ps.length := by
  induction ps with
  | nil => intro acc; simp
  | cons p ps ih =>
    intro acc
    have h1 := ih (acc.add p)
    simp [List.foldl_cons] at h1 ⊢
    rw [h1]
    simp [ProcessedPost.add]
    omega

/-- The __add__-fold sums the entity multisets onto the accumulator. -/
theorem entities_multiset_sum (ps : List ProcessedPost) :
    ∀ acc : ProcessedPost,
      ((ps.foldl ProcessedPost.add acc).entities : Multiset String)
        = (acc.entities : Multiset String)
          + (ps.map (fun p => (p.entities : Multiset String))).sum := by
  induction ps with
  | nil => intro acc; simp
  | cons p ps ih =>
    intro acc
    rw [List.foldl_cons, ih (acc.add p), List.map_cons, List.sum_cons]
    have hsplit : (((ProcessedPost.add acc p).entities : List String) : Multiset String)
        = (acc.entities : Multiset String) + (p.entities : Multiset String) := by
      simp [ProcessedPost.add]
    rw [hsplit, add_assoc]

/-- C3 (confirmed): merging k same-normalized-key records into an empty worker
cache yields a single aggregated record whose article_count is k and whose
entity multiset is the sum of the inputs' entity multisets, and any
permutation of the merge order yields the same count and the same entity
multiset. -/
theorem cache_same_key_aggregation (w : Worker) (key : String)
    (ps : List ProcessedPost) (hc : w._cache = [])
    (hk : ∀ p ∈ ps, p.pub_key = some key) (hne : ps ≠ []) :
    ∃ agg : ProcessedPost,
      (cacheAll w ps)._cache = [(some key, agg)] ∧
      agg.article_count = ps.length ∧
      (agg.entities : Multiset String)
        = (ps.map (fun p => (p.entities : Multiset String))).sum ∧
      ∀ qs : List ProcessedPost, qs.Perm ps →
        ∃ agg2 : ProcessedPost,
          (cacheAll w qs)._cache = [(some key, agg2)] ∧
          agg2.article_count = agg.article_count ∧
          (agg2.entities : Multiset String) = (agg.entities : Multiset String) := by
  obtain ⟨p, ps2, rfl⟩ := List.exists_cons_of_ne_nil hne
  refine ⟨(p :: ps2).foldl ProcessedPost.add {},
    cacheAll_from_empty key ps2 p w hc hk, ?_, ?_, ?_⟩
  · rw [foldl_add_article_count]
    simp
  · rw [entities_multiset_sum]
    simp
  · intro qs hperm
    have hqne : qs ≠ [] := by
      intro hq
      rw [hq] at hperm
      have := hperm.length_eq
      simp at this
    obtain ⟨q, qs2, rfl⟩ := List.exists_cons_of_ne_nil hqne
    refine ⟨(q :: qs2).foldl ProcessedPost.add {},
      cacheAll_from_empty key qs2 q w hc (fun r hr => hk r (hperm.subset hr)), ?_, ?_⟩
    · rw [foldl_add_article_count, foldl_add_article_count]
      simp [hperm.length_eq]
    · rw [entities_multiset_sum, entities_multiset_sum]
      rw [List.Perm.sum_eq (hperm.map fun r => (r.entities : Multiset String))]

/-- C3 witness: two records labelled "Acme Corp" and "acme corp " merge under
the single normalized key "acme corp" with article_count 2 and the summed
entity multiset. -/
theorem cache_same_key_aggregation_witness :
    ∃ agg : ProcessedPost,
      (cacheAll wEmpty [ppA, ppB])._cache = [(some "acme corp", agg)] ∧
      agg.article_count = 2 ∧
      (agg.entities : Multiset String)
        = ([ppA, ppB].map (fun p => (p.entities : Multiset String))).sum := by
  obtain ⟨agg, h1, h2, h3, -⟩ :=
    cache_same_key_aggregation wEmpty "acme corp" [ppA, ppB] rfl (by decide) (by decide)
  exact ⟨agg, h1, h2, h3⟩

/-- put on a writable queue appends at the tail. -/
theorem put_writable {α : Type} (qw : QueueWrapper α) (hp : qw._prevent_writes = false)
    (x : α) : qw.put x = { qw with q := qw.q ++ [x] } := by
  simp [QueueWrapper.put, QueueWrapper.is_writable, hp]

/-- put_many on a writable queue appends the whole batch in order. -/
theorem put_many_writable {α : Type} (xs : List α) :
    ∀ qw : QueueWrapper α, qw._prevent_writes = false →
      qw.put_many xs = { qw with q := qw.q ++ xs } := by
  induction xs with
  | nil => intro qw hp; simp [QueueWrapper.put_many]
  | cons x rest ih =>
    intro qw hp
    have h1 : qw.put_many (x :: rest) = (qw.put x).put_many rest := rfl
    rw [h1, put_writable qw hp x, ih { qw with q := qw.q ++ [x] } hp]
    simp

/-- Folding put_many batches onto a writable queue appends their flattening. -/
theorem foldl_put_many_writable (f : (Option String × ProcessedPost) → List (QItem DbMsg))
    (l : List (Option String × ProcessedPost)) :
    ∀ qw : QueueWrapper (QItem DbMsg), qw._prevent_writes = false →
      l.foldl (fun acc kv => acc.put_many (f kv)) qw
        = { qw with q := qw.q ++ (l.map f).flatten } := by
  induction l with
  | nil => intro qw hp; simp
  | cons kv l ih =>
    intro qw hp
    rw [List.foldl_cons, put_many_writable (f kv) qw hp,
      ih { qw with q := qw.q ++ f kv } hp]
    simp

/-- flush_cache with a writable output queue: the cache empties and the output
queue receives, in cache order, the database transform of every cached
record. -/
theorem flush_cache_state (h : String → Int) (w : Worker)
    (hw : w.oq._prevent_writes = false) :
    (Worker.flush_cache h w)._cache = [] ∧
    (Worker.flush_cache h w).oq.q
      = w.oq.q ++ (w._cache.map
          (fun kv => (ProcessedPost.transform_for_database h kv.2 2000).map QItem.val)).flatten := by
  constructor
  · rfl
  · show (w._cache.foldl
      (fun acc kv =>
        acc.put_many ((ProcessedPost.transform_for_database h kv.2 2000).map QItem.val))
      w.oq).q = _
    rw [foldl_put_many_writable _ w._cache w.oq hw]

/-- The database transform of any record is a block of per-entity messages
(each carrying collection tag "ent", a stringified hash doc id and the word
with its count) followed by exactly one count-incrementor; the entity block
has at most top_n = 2000 messages. -/
theorem transform_shape (h : String → Int) (p : ProcessedPost) :
    ∃ ents : List DbMsg,
      ProcessedPost.transform_for_database h p 2000
        = ents ++ [{ pubname := p.pub_key, collname := none, doc_id := none,
                     document_dict := Payload.countOnly p.article_count }] ∧
      ents.length ≤ 2000 ∧
      (∀ m ∈ ents, ∃ wrd : String,
        m = { pubname := p.pub_key, collname := some "ent",
              doc_id := some (toString (h wrd)),
              document_dict := Payload.wordCount wrd (p.entities.count wrd) }) := by
  refine ⟨(counterMostCommon p.entities 2000).map (fun wc =>
    { pubname := p.pub_key, collname := some "ent", doc_id := some (toString (h wc.1)),
      document_dict := Payload.wordCount wc.1 wc.2 }), ?_, ?_, ?_⟩
  · rfl
  · rw [List.length_map]
    exact List.length_take_le 2000 _
  · intro m hm
    rcases List.mem_map.mp hm with ⟨wc, hwc, rfl⟩
    refine ⟨wc.1, ?_⟩
    rw [counterMostCommon_mem p.entities 2000 wc hwc]

/-- C6 counterexample: at a concrete cached record, the per-entity message the
flush expansion produces carries the collection tag "ent", not "entities" as
the claim states (the count-incrementor carries none). -/
theorem flush_entity_collection_tag_cx :
    (ProcessedPost.transform_for_database h0 ppC6 2000).map DbMsg.collname
      = [some "ent", none] ∧
    (some "ent" : Option String) ≠ some "entities" := by
  constructor
  · decide
  · decide

/-- C6 amended (collection tag "ent" instead of "entities"): flushing with a
writable output queue empties the cache and enqueues, per cached record, at
most 2000 per-entity messages — the top entities by descending count, each of
shape (pub_key, "ent", str(hash(word)), word-and-count) — plus exactly one
count-incrementor (pub_key, None, None, article_count). -/
theorem flush_cache_spec_amended (h : String → Int) (w : Worker)
    (hw : w.oq._prevent_writes = false) :
    (Worker.flush_cache h w)._cache = [] ∧
    (Worker.flush_cache h w).oq.q
      = w.oq.q ++ (w._cache.map
          (fun kv => (ProcessedPost.transform_for_database h kv.2 2000).map QItem.val)).flatten ∧
    ∀ p : ProcessedPost, ∃ ents : List DbMsg,
      ProcessedPost.transform_for_database h p 2000
        = ents ++ [{ pubname := p.pub_key, collname := none, doc_id := none,
                     document_dict := Payload.countOnly p.article_count }] ∧
      ents.length ≤ 2000 ∧
      (∀ m ∈ ents, ∃ wrd : String,
        m = { pubname := p.pub_key, collname := some "ent",
              doc_id := some (toString (h wrd)),
              document_dict := Payload.wordCount wrd (p.entities.count wrd) }) ∧
      (counterMostCommon p.entities 2000).Pairwise (fun a b => b.2 ≤ a.2) := by
  refine ⟨(flush_cache_state h w hw).1, (flush_cache_state h w hw).2, ?_⟩
  intro p
  obtain ⟨ents, h1, h2, h3⟩ := transform_shape h p
  exact ⟨ents, h1, h2, h3,
    List.Pairwise.sublist (List.take_sublist 2000 _) (sortByCountDesc_pairwise _)⟩

/-- C6 amended witness: a concrete flush of a one-record cache onto a writable
output queue. -/
theorem flush_cache_spec_amended_witness :
    (Worker.flush_cache h0 wC6)._cache = [] ∧
    (Worker.flush_cache h0 wC6).oq.q
      = wC6.oq.q ++ (wC6._cache.map
          (fun kv => (ProcessedPost.transform_for_database h0 kv.2 2000).map QItem.val)).flatten :=
  ⟨(flush_cache_spec_amended h0 wC6 rfl).1, (flush_cache_spec_amended h0 wC6 rfl).2.1⟩

/-- C10 (confirmed): the sentinel is the plain string "STOP" compared by
equality — any run loop stops the moment it gets it — and in a concrete
scenario a producer's put of "STOP" onto the writable, non-drained input queue
makes the worker exit with its final flush, reaching exactly the output queue,
cache and counter of the run on the drained queue; the saver likewise persists
the same messages and exits, although prevent_writes was never called. -/
theorem stop_sentinel_plain_string_scenario :
    (∀ (h : String → Int) (proc : Post → ProcessedPost) (writable : Bool)
        (rest : List (QItem Post)) (w : Worker),
      Worker.runItems h proc writable (QItem.str "STOP" :: rest) w
        = some (Worker.flush_cache h w, rest)) ∧
    iqC10.is_drained = false ∧
    (iqC10.put (QItem.str "STOP")).q = [QItem.val postA, QItem.str "STOP"] ∧
    wStop.iq._prevent_writes = false ∧
    (Worker.run h0 proc0 wStop).isSome = true ∧
    (Worker.run h0 proc0 wStop).map (fun w => (w.oq.q, w._cache, w._count))
      = (Worker.run h0 proc0 wDrainedRun).map (fun w => (w.oq.q, w._cache, w._count)) ∧
    (Saver.run { q := sQW }).map Prod.fst = some [msgA] ∧
    (Saver.run { q := sQW }).map Prod.fst = (Saver.run { q := sQD }).map Prod.fst := by
  refine ⟨fun h proc writable rest w => rfl, rfl, by decide, rfl, ?_, ?_, ?_, ?_⟩
  · decide
  · decide
  · decide
  · decide
